import Mathlib

/-!
Verification of the Formanova jewelry-pipeline repository.

This file shallowly embeds the parts of the repository that the verified
claims are about:

* the geometric transform & fidelity module of
  `src/server/multi_jewelry_api.py` (bounding boxes, image moments,
  orientation, transform detection, transform application, mask
  comparison);
* the Temporal backend of `src/temporal-backend/src/`:
  the retry policies and the three workflow run functions of
  `workflows.py`, the `poll_job` loop of `activities.py`, and the
  status projection of `api_gateway.py`.

Python integers and pixel values are embedded as `Nat`, exact arithmetic
on coordinates as `Rat` (all values appearing in the verified claims are
integers or half-integers, hence exactly representable), and the
transcendental orientation angle as `Real`.
-/

namespace Formanova

/-! ## Masks

A single-channel image mask: a height, a width, and a pixel value for each
(row, column) position.  Pixels outside the `height × width` grid are
irrelevant (the numpy code only ever scans the grid). -/

structure Mask where
  height : ℕ
  width : ℕ
  pix : ℕ → ℕ → ℕ

/-- The set of foreground (jewelry) pixel coordinates `(y, x)` of a mask:
positions whose value is `< 128` (`jewelry_mask = mask_np < 128`,
`coords = np.argwhere(jewelry_mask)` in `get_jewelry_bbox`). -/
def foreground (m : Mask) : Finset (ℕ × ℕ) :=
  (Finset.range m.height ×ˢ Finset.range m.width).filter
    (fun p => m.pix p.1 p.2 < 128)

/-- Bounding box returned by `get_jewelry_bbox`: position, size and center
of the tight box around the foreground pixels. -/
structure BBox where
  x : ℕ
  y : ℕ
  width : ℕ
  height : ℕ
  center_x : ℚ
  center_y : ℚ
  deriving DecidableEq, Repr

/-- Embedding of `get_jewelry_bbox(mask_np)` from `src/server/multi_jewelry_api.py`
(and, identically, `src/server/api_server.py`): find the bounding box of
the jewelry pixels (values `< 128`); `None` when there are none, else
`{x, y, width = x_max - x_min + 1, height = y_max - y_min + 1,
center_x = (x_min + x_max)/2, center_y = (y_min + y_max)/2}`. -/
def get_jewelry_bbox (m : Mask) : Option BBox :=
  if h : (foreground m).Nonempty then
    let xs := (foreground m).image Prod.snd
    let ys := (foreground m).image Prod.fst
    let x_min := xs.min' (h.image _)
    let x_max := xs.max' (h.image _)
    let y_min := ys.min' (h.image _)
    let y_max := ys.max' (h.image _)
    some { x := x_min, y := y_min
           width := x_max - x_min + 1
           height := y_max - y_min + 1
           center_x := ((x_min : ℚ) + (x_max : ℚ)) / 2
           center_y := ((y_min : ℚ) + (y_max : ℚ)) / 2 }
  else
    none

/-! ## Image moments and orientation

`get_jewelry_orientation` thresholds the mask (`(mask_np < 128) * 255`),
takes `cv2.moments` of the resulting 0/255 image and derives the principal
angle.  Spatial moments are sums of `255 * x^p * y^q` over foreground
pixels; the central moments are the usual `mu20 = m20 - cx*m10` etc., with
OpenCV leaving them at `0` when `m00 = 0`. -/

/-- Spatial moment `m_pq = Σ 255 * x^p * y^q` of the thresholded image
(`x` is the column `p.2`, `y` is the row `p.1`). -/
def moment (p q : ℕ) (m : Mask) : ℚ :=
  ∑ c ∈ foreground m, 255 * (c.2 : ℚ) ^ p * (c.1 : ℚ) ^ q

/-- Central moment `mu20 = m20 - (m10/m00) * m10`; `0` for the all-zero
image, as in `cv2.moments`. -/
def mu20 (m : Mask) : ℚ :=
  if moment 0 0 m = 0 then 0
  else moment 2 0 m - (moment 1 0 m / moment 0 0 m) * moment 1 0 m

/-- Central moment `mu02 = m02 - (m01/m00) * m01`; `0` for the all-zero
image. -/
def mu02 (m : Mask) : ℚ :=
  if moment 0 0 m = 0 then 0
  else moment 0 2 m - (moment 0 1 m / moment 0 0 m) * moment 0 1 m

/-- Central moment `mu11 = m11 - (m10/m00) * m01`; `0` for the all-zero
image. -/
def mu11 (m : Mask) : ℚ :=
  if moment 0 0 m = 0 then 0
  else moment 1 1 m - (moment 1 0 m / moment 0 0 m) * moment 0 1 m

/-- Model of `np.arctan2 y x` over the reals (quadrant-correct arctangent,
`atan2 0 0 = 0`). -/
noncomputable def atan2 (y x : ℝ) : ℝ :=
  if 0 < x then Real.arctan (y / x)
  else if x < 0 then
    (if 0 ≤ y then Real.arctan (y / x) + Real.pi
     else Real.arctan (y / x) - Real.pi)
  else if 0 < y then Real.pi / 2
  else if y < 0 then -(Real.pi / 2)
  else 0

/-- Conversion `np.degrees`: radians to degrees. -/
noncomputable def degrees (x : ℝ) : ℝ := x * 180 / Real.pi

/-- Embedding of `get_jewelry_orientation(mask_np)`: `0` when `mu20 == mu02` (the
guard avoiding the degenerate `arctan2`), otherwise
`degrees(0.5 * arctan2(2*mu11, mu20 - mu02))`. -/
noncomputable def get_jewelry_orientation (m : Mask) : ℝ :=
  if mu20 m = mu02 m then 0
  else degrees (0.5 * atan2 (2 * (mu11 m : ℝ)) ((mu20 m : ℝ) - (mu02 m : ℝ)))

/-! ## Transform detection -/

/-- Result of `detect_transformations`: translation of the bounding-box
centers, per-axis scale, rotation (difference of orientations), and the
two boxes. -/
structure TransformResult where
  translation_x : ℚ
  translation_y : ℚ
  scale_x : ℚ
  scale_y : ℚ
  rotation : ℝ
  input_bbox : BBox
  output_bbox : BBox

/-- Embedding of `detect_transformations(input_mask_np, output_mask_np)`: `None` when
either bounding box is `None`; otherwise translation = difference of box
centers, scale = output/input box size (with a `width > 0` guard falling
back to `1.0`), rotation = difference of the moment orientations. -/
noncomputable def detect_transformations (input_mask output_mask : Mask) :
    Option TransformResult :=
  match get_jewelry_bbox input_mask, get_jewelry_bbox output_mask with
  | some in_bbox, some out_bbox =>
      some { translation_x := out_bbox.center_x - in_bbox.center_x
             translation_y := out_bbox.center_y - in_bbox.center_y
             scale_x := if 0 < in_bbox.width
                        then (out_bbox.width : ℚ) / (in_bbox.width : ℚ) else 1
             scale_y := if 0 < in_bbox.height
                        then (out_bbox.height : ℚ) / (in_bbox.height : ℚ) else 1
             rotation := get_jewelry_orientation output_mask -
               get_jewelry_orientation input_mask
             input_bbox := in_bbox
             output_bbox := out_bbox }
  | _, _ => none

/-! ## Transform application

`transform_jewelry` and `transform_mask` both build the homogeneous
matrix `M = T2 @ R @ S @ T1`, truncate it to its top two rows and hand it
to `cv2.warpAffine` — with bilinear interpolation and transparent border
`(0, 0, 0, 0)` for the RGBA jewelry buffer, and with nearest-neighbor
interpolation and scalar border `255` for the mask.  The embedding
represents the issued `warpAffine` call (matrix, interpolation mode,
border value) explicitly. -/

/-- The fields of `transform_data` read by the two application functions:
input/output box centers, scale, and rotation (degrees). -/
structure TransformParams where
  in_cx : ℝ
  in_cy : ℝ
  out_cx : ℝ
  out_cy : ℝ
  scale_x : ℝ
  scale_y : ℝ
  rotation : ℝ

/-- Matrix `T1`: translate the input-box center to the origin. -/
def matT1 (td : TransformParams) : Matrix (Fin 3) (Fin 3) ℝ :=
  !![1, 0, -td.in_cx; 0, 1, -td.in_cy; 0, 0, 1]

/-- Matrix `S`: per-axis scale. -/
def matS (td : TransformParams) : Matrix (Fin 3) (Fin 3) ℝ :=
  !![td.scale_x, 0, 0; 0, td.scale_y, 0; 0, 0, 1]

/-- Conversion `np.radians`: degrees to radians. -/
noncomputable def radians (x : ℝ) : ℝ := x * Real.pi / 180

/-- Matrix `R`: rotation by `theta = radians(rotation)`. -/
noncomputable def matR (td : TransformParams) : Matrix (Fin 3) (Fin 3) ℝ :=
  !![Real.cos (radians td.rotation), -Real.sin (radians td.rotation), 0;
     Real.sin (radians td.rotation), Real.cos (radians td.rotation), 0;
     0, 0, 1]

/-- Matrix `T2`: translate the origin to the output-box center. -/
def matT2 (td : TransformParams) : Matrix (Fin 3) (Fin 3) ℝ :=
  !![1, 0, td.out_cx; 0, 1, td.out_cy; 0, 0, 1]

/-- The product `M = T2 @ R @ S @ T1`, the full homogeneous matrix both functions
build before truncating it to its top two rows. -/
noncomputable def buildAffine (td : TransformParams) : Matrix (Fin 3) (Fin 3) ℝ :=
  matT2 td * matR td * matS td * matT1 td

/-- Interpolation flag passed to `cv2.warpAffine`. -/
inductive InterpMode
  | linear
  | nearest
  deriving DecidableEq, Repr

/-- Border value passed to `cv2.warpAffine` with `BORDER_CONSTANT`:
an RGBA constant for pixel buffers, a single gray value for masks. -/
inductive BorderValue
  | rgba (r g b a : ℕ)
  | gray (v : ℕ)
  deriving DecidableEq, Repr

/-- One `cv2.warpAffine` invocation: the (truncated, 2×3) matrix, the
interpolation mode, and the constant border fill. -/
structure WarpCall where
  matrix : Matrix (Fin 2) (Fin 3) ℝ
  interp : InterpMode
  border : BorderValue

/-- Truncation `M[:2, :]`: keep the top two rows of the homogeneous matrix. -/
def topTwoRows (M : Matrix (Fin 3) (Fin 3) ℝ) : Matrix (Fin 2) (Fin 3) ℝ :=
  fun i j => M i.castSucc j

/-- Embedding of `transform_jewelry(jewelry_pil, transform_data)` as the `warpAffine`
call it issues: matrix `T2·R·S·T1` truncated to 2×3, `INTER_LINEAR`,
`BORDER_CONSTANT` with `borderValue = (0, 0, 0, 0)`. -/
noncomputable def transform_jewelry (td : TransformParams) : WarpCall :=
  { matrix := topTwoRows (buildAffine td)
    interp := .linear
    border := .rgba 0 0 0 0 }

/-- Embedding of `transform_mask(mask_pil, transform_data)` as the `warpAffine` call it
issues: the same matrix `T2·R·S·T1` truncated to 2×3, `INTER_NEAREST`,
`BORDER_CONSTANT` with `borderValue = 255`. -/
noncomputable def transform_mask (td : TransformParams) : WarpCall :=
  { matrix := topTwoRows (buildAffine td)
    interp := .nearest
    border := .gray 255 }

/-! ## Mask comparison (fidelity metrics) -/

/-- The metrics dictionary returned by `compare_masks_fidelity`. -/
structure Fidelity where
  iou : ℚ
  dice : ℚ
  prec : ℚ
  recl : ℚ
  growth_ratio : ℚ
  extra_area_fraction : ℚ
  deriving DecidableEq, Repr

/-- PIL `Image.resize((w, h), Image.Resampling.NEAREST)`: each target
pixel samples the source pixel whose index the center of the target pixel
maps back onto (`⌊(i + 1/2) * src/dst⌋`). -/
def nearestResize (m : Mask) (h w : ℕ) : Mask :=
  { height := h
    width := w
    pix := fun y x => m.pix ((2 * y + 1) * m.height / (2 * h))
                            ((2 * x + 1) * m.width / (2 * w)) }

/-- Number of positions of the `h × w` grid at which `f` holds — the
`np.sum` of a thresholded 0/1 array. -/
def countGrid (h w : ℕ) (f : ℕ → ℕ → Prop) [DecidablePred fun p : ℕ × ℕ => f p.1 p.2] : ℕ :=
  ((Finset.range h ×ˢ Finset.range w).filter (fun p => f p.1 p.2)).card

/-- Embedding of `compare_masks_fidelity(mask_input, mask_output)` from
`src/server/multi_jewelry_api.py`: resize the candidate to the reference
size with nearest-neighbor if the sizes differ, threshold both at `< 128`,
and compute IoU, Dice, precision, recall, growth ratio and extra-area
fraction; if the reference has zero foreground pixels, return the
degenerate vector `{0, 0, 0, 0, 1, 0}` before any division.  (The
leading `mask is None` guard of the Python code is outside this embedding:
both arguments here are actual masks.) -/
def compare_masks_fidelity (mask_input mask_output : Mask) : Fidelity :=
  let out := if (mask_output.height, mask_output.width) =
                (mask_input.height, mask_input.width)
             then mask_output
             else nearestResize mask_output mask_input.height mask_input.width
  let h := mask_input.height
  let w := mask_input.width
  let area_input := countGrid h w (fun y x => mask_input.pix y x < 128)
  let area_output := countGrid h w (fun y x => out.pix y x < 128)
  if area_input = 0 then
    { iou := 0, dice := 0, prec := 0, recl := 0
      growth_ratio := 1, extra_area_fraction := 0 }
  else
    let intersection :=
      countGrid h w (fun y x => mask_input.pix y x < 128 ∧ out.pix y x < 128)
    let union :=
      countGrid h w (fun y x => mask_input.pix y x < 128 ∨ out.pix y x < 128)
    { iou := if 0 < union then (intersection : ℚ) / union else 0
      dice := if 0 < area_input + area_output
              then (2 * intersection : ℚ) / ((area_input : ℚ) + area_output) else 0
      prec := if 0 < area_output then (intersection : ℚ) / area_output else 0
      recl := if 0 < area_input then (intersection : ℚ) / area_input else 0
      growth_ratio := (area_output : ℚ) / area_input
      extra_area_fraction := ((max 0 ((area_output : ℤ) - area_input) : ℤ) : ℚ) / area_input }

/-! ## Status projection (`api_gateway.py`)

The gateway maps the Temporal client's native execution status
(`temporalio.client.WorkflowExecutionStatus`, which has exactly the seven
members below) through the `status_map` dictionary, with `"UNKNOWN"` as
the `.get` default, and then enriches the response per client status. -/

/-- The engine-native execution status enum
(`temporalio.client.WorkflowExecutionStatus`). -/
inductive WorkflowExecutionStatus
  | running
  | completed
  | failed
  | canceled
  | terminated
  | continued_as_new
  | timed_out
  deriving DecidableEq, Repr

/-- The `status_map` dictionary of `get_workflow_status`, in source
order. -/
def status_map : List (WorkflowExecutionStatus × String) :=
  [(.running, "RUNNING"),
   (.completed, "COMPLETED"),
   (.failed, "FAILED"),
   (.canceled, "CANCELLED"),
   (.terminated, "CANCELLED"),
   (.timed_out, "FAILED"),
   (.continued_as_new, "RUNNING")]

/-- The lookup `status_map.get(desc.status, "UNKNOWN")`. -/
def statusMapGet (s : WorkflowExecutionStatus) : String :=
  ((status_map.lookup s).getD "UNKNOWN")

/-- The four statuses of the client-facing `ClientStatus` vocabulary. -/
def clientStatuses : List String :=
  ["RUNNING", "COMPLETED", "FAILED", "CANCELLED"]

/-- The progress record returned by the workflow `get_progress` query
(the fields the gateway reads). -/
structure ProgressQ where
  progress : ℤ
  current_step : String
  deriving DecidableEq, Repr

/-- The error dictionary attached to FAILED / CANCELLED responses. -/
structure ErrInfo where
  code : String
  message : String
  deriving DecidableEq, Repr

/-- The `WorkflowStatusResponse` body of `GET /workflow/{id}`.  The
converted result payload is kept opaque as a `String`. -/
structure StatusResponse where
  workflowId : String
  status : String
  progress : Option ℤ := none
  currentStep : Option String := none
  result : Option String := none
  error : Option ErrInfo := none
  deriving DecidableEq, Repr

/-- The enrichment branch of `get_workflow_status` after a successful
`safe_describe`: map the native status, then

* `RUNNING`: attach the queried progress / current step (or `0` /
  `"PROCESSING"` when the progress query failed);
* `COMPLETED`: attach the fetched result (when ready), `progress = 100`,
  `currentStep = "COMPLETED"`;
* `FAILED`: attach `{code: "WORKFLOW_FAILED", message: "Workflow
  execution failed"}`, `progress = 0`, `currentStep = "FAILED"`;
* `CANCELLED`: attach `{code: "WORKFLOW_CANCELLED", message: "Workflow
  was cancelled"}`, `progress = 0`, `currentStep = "CANCELLED"`.

`progressQ` is the outcome of the progress query (`none` = query failed)
and `resultR` the outcome of `safe_result`. -/
def get_workflow_status (workflow_id : String)
    (native : WorkflowExecutionStatus)
    (progressQ : Option ProgressQ) (resultR : Option String) :
    StatusResponse :=
  let workflow_status := statusMapGet native
  let base : StatusResponse := { workflowId := workflow_id, status := workflow_status }
  if workflow_status = "RUNNING" then
    match progressQ with
    | some p => { base with progress := some p.progress,
                            currentStep := some p.current_step }
    | none => { base with progress := some 0, currentStep := some "PROCESSING" }
  else if workflow_status = "COMPLETED" then
    { base with result := resultR, progress := some 100,
                currentStep := some "COMPLETED" }
  else if workflow_status = "FAILED" then
    { base with error := some { code := "WORKFLOW_FAILED",
                                message := "Workflow execution failed" },
                progress := some 0, currentStep := some "FAILED" }
  else if workflow_status = "CANCELLED" then
    { base with error := some { code := "WORKFLOW_CANCELLED",
                                message := "Workflow was cancelled" },
                progress := some 0, currentStep := some "CANCELLED" }
  else base

/-! ## Retry policies (`workflows.py`) -/

/-- The fields of `temporalio.common.RetryPolicy` set by the repository
(intervals in seconds). -/
structure RetryPolicy where
  initial_interval : ℚ
  backoff_coefficient : ℚ
  maximum_interval : ℚ
  maximum_attempts : ℕ
  non_retryable_error_types : List String := []
  deriving DecidableEq, Repr

/-- Policy `IMAGE_PROCESSING_RETRY`: 1s initial, coefficient 2, capped at 10s,
at most 5 attempts. -/
def IMAGE_PROCESSING_RETRY : RetryPolicy :=
  { initial_interval := 1
    backoff_coefficient := 2
    maximum_interval := 10
    maximum_attempts := 5 }

/-- Policy `ML_SERVICE_RETRY`: 2s initial, coefficient 2, capped at 30s, at most
3 attempts, with `A100UnavailableError` non-retryable. -/
def ML_SERVICE_RETRY : RetryPolicy :=
  { initial_interval := 2
    backoff_coefficient := 2
    maximum_interval := 30
    maximum_attempts := 3
    non_retryable_error_types := ["A100UnavailableError"] }

/-- Whether an error type fails the activity immediately under a policy
(it is listed in `non_retryable_error_types`). -/
def isNonRetryable (policy : RetryPolicy) (errType : String) : Bool :=
  policy.non_retryable_error_types.contains errType

/-- Modelled from the spec: the backoff delay the durable-execution
engine waits before retry `n` (`n = 1` after the first failure):
`min(initial_interval * backoff_coefficient^(n-1), maximum_interval)`. -/
def backoffDelay (policy : RetryPolicy) (n : ℕ) : ℚ :=
  min (policy.initial_interval * policy.backoff_coefficient ^ (n - 1))
      policy.maximum_interval

/-- Outcome of running one activity under a retry policy: success or
failure, with the number of invocations made. -/
inductive RetryOutcome
  | succeeded (invocations : ℕ)
  | failed (invocations : ℕ) (errType : String)
  deriving DecidableEq, Repr

/-- Modelled from the spec: the durable-execution engine's per-activity
retry loop (the engine itself is the external substrate, not repository
code).  `behavior n` is the outcome of invocation `n` (`none` = success,
`some e` = failure with error type `e`); an attempt is retried unless its
error type is non-retryable or the attempt budget `remaining` is spent.
The entry point `execRetry` starts at attempt 1 with
`maximum_attempts` remaining (both policies in the repository set a
positive `maximum_attempts`). -/
def retryGo (policy : RetryPolicy) (behavior : ℕ → Option String) :
    ℕ → ℕ → RetryOutcome
  | _, 0 => .failed 0 ""
  | attempt, remaining + 1 =>
      match behavior attempt with
      | none => .succeeded attempt
      | some e =>
          if isNonRetryable policy e ∨ remaining = 0 then .failed attempt e
          else retryGo policy behavior (attempt + 1) remaining

/-- Modelled from the spec: run an activity to completion under a retry
policy. -/
def execRetry (policy : RetryPolicy) (behavior : ℕ → Option String) :
    RetryOutcome :=
  retryGo policy behavior 1 policy.maximum_attempts

/-! ## The async-job poll loop (`activities.py`, `poll_job`)

`poll_job` is called with its default `poll_interval = 2.0` and
`timeout = 120.0` at every call site; elapsed time is idealized as the
accumulated sleep time, so iteration `i` runs at `elapsed = 2 * i`
seconds.  The loop body first checks `elapsed > timeout`, then fetches
the job status (`responses i`, with `data.get("status", "unknown")` and
`data.get("error", "Unknown error")` modelled by the `JobData` fields),
and returns on `completed`/`succeeded`, raises on `failed`, and sleeps
otherwise. -/

/-- One polled job-status response body. -/
structure JobData where
  status : String
  error : Option String := none
  deriving DecidableEq, Repr

/-- Result of the poll loop: the successful terminal response (with the
iteration index it arrived at), a `TimeoutError`, or the `Exception`
raised for an explicit `failed` status (carrying
`"Job failed: " + data.get("error", "Unknown error")`). -/
inductive PollResult
  | success (i : ℕ) (d : JobData)
  | timedOut
  | jobFailed (msg : String)
  deriving DecidableEq, Repr

/-- The Python class of the error a poll outcome raises (as matched by
`RetryPolicy.non_retryable_error_types`): `TimeoutError` on timeout, the
generic `Exception` on an explicit `failed` status. -/
def pollErrType : PollResult → Option String
  | .success _ _ => none
  | .timedOut => some "TimeoutError"
  | .jobFailed _ => some "Exception"

/-- The poll loop from iteration `i` on: at `elapsed = 2 * i > 120` raise
`TimeoutError`; otherwise inspect `responses i` and terminate or recurse
at `i + 1` after the 2-second sleep. -/
def pollFrom (responses : ℕ → JobData) (i : ℕ) : PollResult :=
  if h : 2 * i > 120 then .timedOut
  else if (responses i).status = "completed" ∨ (responses i).status = "succeeded" then
    .success i (responses i)
  else if (responses i).status = "failed" then
    .jobFailed ("Job failed: " ++ ((responses i).error.getD "Unknown error"))
  else
    pollFrom responses (i + 1)
  termination_by 61 - i
  decreasing_by omega

/-- Embedding of `poll_job(base_url, job_id)` with the default 2s interval and 120s
budget, as a function of the sequence of job-status responses. -/
def poll_job (responses : ℕ → JobData) : PollResult :=
  pollFrom responses 0

/-- Whether a polled response has one of the three terminal statuses the
loop stops on. -/
def isTerminal (d : JobData) : Bool :=
  d.status == "completed" || d.status == "succeeded" || d.status == "failed"

/-! ## Workflow state machines (`workflows.py`)

The three workflow `run` methods are embedded as functions of

* an `ActivityEnv` supplying the result of each activity (each activity
  call succeeds and returns the environment's value — retries and
  activity failures are settled separately under C3/C4);
* the workflow input;
* `sig : ℕ → Bool`, the value of the cooperative-cancellation flag
  `self._cancelled` at each of the `if self._cancelled: raise
  workflow.CancelledError(...)` boundary checks of
  `JewelryGenerationWorkflow.run` (the flag is set by the `cancel`
  signal handler; `sig k = true` means the signal had been delivered by
  the time the `k`-th check runs).  `JewelryGenerationWorkflow.run` has
  exactly six such checks (after upload, resize, zoom-check, the
  background-removal region, mask generation, and the mask-refinement
  region); `PreprocessingWorkflow.run` and `GenerationWorkflow.run`
  contain no check at all, so for them `sig` records the same flag but
  is never consulted.

The returned trace lists the names of the activities executed, in order;
the outcome is the returned value or the raised cancellation (which the
engine turns into a `CANCELLED` termination).  The `_set_progress`
book-keeping (queried by the gateway, settled under C5) is elided: it
writes instance fields only. -/

/-- Record `MaskPoint` (a normalized click). -/
structure MaskPoint where
  x : ℚ
  y : ℚ
  label : ℕ
  deriving DecidableEq, Repr

/-- Record `StrokePoint`. -/
structure StrokePoint where
  x : ℚ
  y : ℚ
  deriving DecidableEq, Repr

/-- Record `BrushStroke`. -/
structure BrushStroke where
  points : List StrokePoint
  mode : String
  size : ℕ
  deriving DecidableEq, Repr

/-- Record `WorkflowInput` (the fields the workflows read). -/
structure WorkflowInput where
  original_image_base64 : String
  mask_points : List MaskPoint
  brush_strokes : Option (List BrushStroke) := none
  deriving DecidableEq, Repr

/-- The per-model fidelity metrics record (`models.FidelityMetrics`). -/
structure FidelityMetrics where
  prec : ℚ
  recl : ℚ
  iou : ℚ
  growth_ratio : ℚ
  deriving DecidableEq, Repr

/-- The fields extracted from the `generate_images` activity result. -/
structure GenResult where
  flux_result_uri : Option String
  flux_fidelity_viz_uri : Option String
  flux_metrics : Option FidelityMetrics
  gemini_result_uri : Option String
  gemini_fidelity_viz_uri : Option String
  gemini_metrics : Option FidelityMetrics
  deriving DecidableEq, Repr

/-- The results the activities return when they succeed (one field per
activity output consumed by the workflows). -/
structure ActivityEnv where
  session_id : String
  azure_uri : String
  resized_uri : String
  padding : List ℕ
  recommend_bg_removal : Bool
  bg_result_uri : String
  mask_uri : String
  refined_mask_uri : String
  gen : GenResult
  deriving DecidableEq, Repr

/-- Record `WorkflowOutput` as built by `JewelryGenerationWorkflow.run`. -/
structure WorkflowOutput where
  flux_result_uri : Option String
  flux_fidelity_viz_uri : Option String
  flux_metrics : Option FidelityMetrics
  gemini_result_uri : Option String
  gemini_fidelity_viz_uri : Option String
  gemini_metrics : Option FidelityMetrics
  processed_image_uri : String
  final_mask_uri : String
  background_removed : Bool
  deriving DecidableEq, Repr

/-- Terminal outcome of a workflow run: the returned value, or the
raised `workflow.CancelledError` (terminating the execution as
`CANCELLED`). -/
inductive Outcome (α : Type)
  | completed (out : α)
  | cancelled
  deriving DecidableEq, Repr

/-- Python truthiness of `input.brush_strokes and len(input.brush_strokes) > 0`. -/
def hasStrokes (strokes : Option (List BrushStroke)) : Bool :=
  match strokes with
  | some l => ¬ l = []
  | none => false

/-- Embedding of `JewelryGenerationWorkflow.run`: upload → (check) → resize → (check)
→ zoom-check → (check) → [background removal] → (check) → mask
generation → (check) → [mask refinement] → (check) → image generation →
return `WorkflowOutput`.  Each `(check)` is the literal
`if self._cancelled: raise workflow.CancelledError(...)` of the source,
numbered 0–5. -/
def jewelryRun (env : ActivityEnv) (input : WorkflowInput) (sig : ℕ → Bool) :
    List String × Outcome WorkflowOutput :=
  let t1 := ["upload_to_azure"]
  if sig 0 then (t1, .cancelled) else
  let t2 := t1 ++ ["resize_image"]
  if sig 1 then (t2, .cancelled) else
  let t3 := t2 ++ ["check_zoom"]
  if sig 2 then (t3, .cancelled) else
  let t4 := if env.recommend_bg_removal then t3 ++ ["remove_background"] else t3
  let background_removed := env.recommend_bg_removal
  if sig 3 then (t4, .cancelled) else
  let t5 := t4 ++ ["generate_mask"]
  if sig 4 then (t5, .cancelled) else
  let t6 := if hasStrokes input.brush_strokes then t5 ++ ["refine_mask"] else t5
  let final_mask_uri :=
    if hasStrokes input.brush_strokes then env.refined_mask_uri else env.mask_uri
  if sig 5 then (t6, .cancelled) else
  let t7 := t6 ++ ["generate_images"]
  (t7, .completed
    { flux_result_uri := env.gen.flux_result_uri
      flux_fidelity_viz_uri := env.gen.flux_fidelity_viz_uri
      flux_metrics := env.gen.flux_metrics
      gemini_result_uri := env.gen.gemini_result_uri
      gemini_fidelity_viz_uri := env.gen.gemini_fidelity_viz_uri
      gemini_metrics := env.gen.gemini_metrics
      processed_image_uri := env.resized_uri
      final_mask_uri := final_mask_uri
      background_removed := background_removed })

/-- The dictionary returned by `PreprocessingWorkflow.run`. -/
structure PreprocessOut where
  sessionId : String
  originalUri : String
  resizedUri : String
  maskUri : String
  bgRemovedUri : Option String
  backgroundRemoved : Bool
  padding : List ℕ
  scaledPoints : List (ℚ × ℚ)
  deriving DecidableEq, Repr

/-- Embedding of `PreprocessingWorkflow.run`: upload → resize → zoom-check →
[background removal] → mask generation → return.  The body contains no
read of `self._cancelled` (the `cancel` signal sets the flag, but no
step boundary consults it), so `sig` is never used. -/
def preprocessingRun (env : ActivityEnv) (input : WorkflowInput)
    (sig : ℕ → Bool) : List String × Outcome PreprocessOut :=
  let t1 := ["upload_to_azure"]
  let t2 := t1 ++ ["resize_image"]
  let t3 := t2 ++ ["check_zoom"]
  let t4 := if env.recommend_bg_removal then t3 ++ ["remove_background"] else t3
  let image_for_segmentation :=
    if env.recommend_bg_removal then env.bg_result_uri else env.resized_uri
  let t5 := t4 ++ ["generate_mask"]
  (t5, .completed
    { sessionId := env.session_id
      originalUri := env.azure_uri
      resizedUri := env.resized_uri
      maskUri := env.mask_uri
      bgRemovedUri := if env.recommend_bg_removal
                      then some image_for_segmentation else none
      backgroundRemoved := env.recommend_bg_removal
      padding := env.padding
      scaledPoints := input.mask_points.map (fun p => (p.x * 2000, p.y * 2667)) })

/-- The dictionary returned by `GenerationWorkflow.run` (metric values
extracted with `get_metric` and its defaults). -/
structure GenerationOut where
  fluxResultUri : Option String
  fluxFidelityVizUri : Option String
  fluxMetrics : Option FidelityMetrics
  geminiResultUri : Option String
  geminiFidelityVizUri : Option String
  geminiMetrics : Option FidelityMetrics
  finalMaskUri : String
  deriving DecidableEq, Repr

/-- Embedding of `GenerationWorkflow.run`: [mask refinement] → image generation →
return.  Like `PreprocessingWorkflow.run`, its body never reads
`self._cancelled`, so `sig` is never used. -/
def generationRun (env : ActivityEnv) (mask_uri : String)
    (brush_strokes : Option (List BrushStroke)) (sig : ℕ → Bool) :
    List String × Outcome GenerationOut :=
  let t1 := if hasStrokes brush_strokes then ["refine_mask"] else []
  let final_mask_uri :=
    if hasStrokes brush_strokes then env.refined_mask_uri else mask_uri
  let t2 := t1 ++ ["generate_images"]
  (t2, .completed
    { fluxResultUri := env.gen.flux_result_uri
      fluxFidelityVizUri := env.gen.flux_fidelity_viz_uri
      fluxMetrics := env.gen.flux_metrics
      geminiResultUri := env.gen.gemini_result_uri
      geminiFidelityVizUri := env.gen.gemini_fidelity_viz_uri
      geminiMetrics := env.gen.gemini_metrics
      finalMaskUri := final_mask_uri })

/-- The number of activities `JewelryGenerationWorkflow.run` has executed
when its cancellation check number `k` runs (checks 3 and 5 sit after the
conditional background-removal / mask-refinement regions). -/
def actsBeforeCheck (env : ActivityEnv) (input : WorkflowInput) : ℕ → ℕ
  | 0 => 1
  | 1 => 2
  | 2 => 3
  | 3 => 3 + (if env.recommend_bg_removal then 1 else 0)
  | 4 => 4 + (if env.recommend_bg_removal then 1 else 0)
  | _ => 4 + (if env.recommend_bg_removal then 1 else 0) +
             (if hasStrokes input.brush_strokes then 1 else 0)

/-! ## Concrete fixtures

Rectangle masks (used for the §8 scenario of the spec) and small concrete
inputs used to witness the theorems below. -/

/-- An `h × w` mask whose foreground (value `0`) is the axis-aligned
rectangle of rows `y0 ≤ y < y1` and columns `x0 ≤ x < x1`, on a `255`
background. -/
def rectMask (h w y0 y1 x0 x1 : ℕ) : Mask :=
  { height := h
    width := w
    pix := fun y x => if y0 ≤ y ∧ y < y1 ∧ x0 ≤ x ∧ x < x1 then 0 else 255 }

/-- The normalized second-order spread `Σ x² - (Σ x)² / |s|` of a finite
set of coordinates: the quantity `mu20 / (255 · height)` (resp.
`mu02 / (255 · width)`) of a rectangle mask. -/
def spread (s : Finset ℕ) : ℚ :=
  (∑ i ∈ s, (i : ℚ) ^ 2) - (∑ i ∈ s, (i : ℚ)) ^ 2 / s.card

/-- Scenario input mask (spec §8): a 100×100 foreground square, rows and
columns 100–199, on a 300×300 canvas. -/
def scenIn : Mask := rectMask 300 300 100 200 100 200

/-- Scenario output mask (spec §8): the square translated 20 px right and
scaled 1.5× about its center — a 150×150 square, rows 75–224, columns
95–244. -/
def scenOut : Mask := rectMask 300 300 75 225 95 245

/-- A 3×3 mask with foreground pixels at `(y, x) = (1, 1)` and `(2, 0)`. -/
def maskW1 : Mask :=
  { height := 3, width := 3
    pix := fun y x => if (y = 1 ∧ x = 1) ∨ (y = 2 ∧ x = 0) then 0 else 255 }

/-- A 2×2 mask with no foreground pixel. -/
def maskEmpty : Mask := { height := 2, width := 2, pix := fun _ _ => 255 }

/-- A 3×1 all-foreground mask. -/
def maskCol : Mask := { height := 3, width := 1, pix := fun _ _ => 0 }

/-- A 1×1 foreground mask. -/
def maskDot : Mask := { height := 1, width := 1, pix := fun _ _ => 0 }

/-- A concrete generation-activity result. -/
def genR0 : GenResult :=
  { flux_result_uri := some "azure://c/flux.png"
    flux_fidelity_viz_uri := some "azure://c/flux-viz.png"
    flux_metrics := some { prec := 9/10, recl := 8/10, iou := 7/10, growth_ratio := 1 }
    gemini_result_uri := some "azure://c/gemini.png"
    gemini_fidelity_viz_uri := none
    gemini_metrics := none }

/-- A concrete activity environment. -/
def env0 : ActivityEnv :=
  { session_id := "sess-1"
    azure_uri := "azure://c/original.jpg"
    resized_uri := "azure://c/resized.png"
    padding := [0, 0, 10, 10]
    recommend_bg_removal := false
    bg_result_uri := "azure://c/bg.png"
    mask_uri := "azure://c/mask.png"
    refined_mask_uri := "azure://c/refined.png"
    gen := genR0 }

/-- A concrete workflow input with three foreground clicks and no brush
strokes. -/
def input0 : WorkflowInput :=
  { original_image_base64 := "aW1n"
    mask_points := [⟨1/2, 1/2, 1⟩, ⟨1/4, 3/4, 1⟩, ⟨3/4, 1/4, 1⟩]
    brush_strokes := none }

/-! ## Theorems -/

/-- C2. The get-status endpoint maps the engine-native execution
status to the client status exactly per the table (RUNNING→RUNNING,
COMPLETED→COMPLETED, FAILED→FAILED, TIMED_OUT→FAILED, CANCELED→CANCELLED,
TERMINATED→CANCELLED, CONTINUED_AS_NEW→RUNNING), and for every possible
native status the value returned is one of the four `ClientStatus`
values `{RUNNING, COMPLETED, FAILED, CANCELLED}` — no other status string
is exposed. -/
theorem C2_status_mapping :
    statusMapGet .running = "RUNNING" ∧
    statusMapGet .completed = "COMPLETED" ∧
    statusMapGet .failed = "FAILED" ∧
    statusMapGet .timed_out = "FAILED" ∧
    statusMapGet .canceled = "CANCELLED" ∧
    statusMapGet .terminated = "CANCELLED" ∧
    statusMapGet .continued_as_new = "RUNNING" ∧
    ∀ s : WorkflowExecutionStatus, statusMapGet s ∈ clientStatuses := by
  refine ⟨rfl, rfl, rfl, rfl, rfl, rfl, rfl, ?_⟩
  intro s
  cases s <;> decide

/-- Unfolding step for the modelled retry loop: a retryable failure at
attempt `a` with `r` further attempts allowed either exhausts the budget
(`r = 0`) or retries at `a + 1`. -/
theorem retryGo_step (p : RetryPolicy) (b : ℕ → Option String) (a r : ℕ)
    (e : String) (he : b a = some e) (hr : isNonRetryable p e = false) :
    retryGo p b a (r + 1) =
      if r = 0 then .failed a e else retryGo p b (a + 1) r := by
  simp [retryGo, he, hr]

/-- C4. Local image-processing activities run under a retry policy
with 1 s initial backoff capped at 10 s and at most 5 attempts; external
ML-service activities run under 2 s initial backoff capped at 30 s and at
most 3 attempts with `A100UnavailableError` as the explicit non-retryable
error class; and an ML-service activity that always raises a retryable
error is invoked exactly 3 times before it fails (hence before the
workflow observes FAILED). -/
theorem C4_retry_policies :
    IMAGE_PROCESSING_RETRY =
      { initial_interval := 1, backoff_coefficient := 2, maximum_interval := 10,
        maximum_attempts := 5, non_retryable_error_types := [] } ∧
    ML_SERVICE_RETRY =
      { initial_interval := 2, backoff_coefficient := 2, maximum_interval := 30,
        maximum_attempts := 3,
        non_retryable_error_types := ["A100UnavailableError"] } ∧
    backoffDelay IMAGE_PROCESSING_RETRY 1 = 1 ∧
    backoffDelay ML_SERVICE_RETRY 1 = 2 ∧
    (∀ n : ℕ, backoffDelay IMAGE_PROCESSING_RETRY n ≤ 10 ∧
              backoffDelay ML_SERVICE_RETRY n ≤ 30) ∧
    ∀ behavior : ℕ → Option String,
      (∀ k, behavior k ≠ none) →
      (∀ k e, behavior k = some e → isNonRetryable ML_SERVICE_RETRY e = false) →
      ∃ e, behavior 3 = some e ∧
        execRetry ML_SERVICE_RETRY behavior = .failed 3 e := by
  refine ⟨rfl, rfl,
    by norm_num [backoffDelay, IMAGE_PROCESSING_RETRY],
    by norm_num [backoffDelay, ML_SERVICE_RETRY],
    fun n => ⟨min_le_right _ _, min_le_right _ _⟩, ?_⟩
  intro behavior hsome hretry
  obtain ⟨e1, he1⟩ := Option.ne_none_iff_exists'.mp (hsome 1)
  obtain ⟨e2, he2⟩ := Option.ne_none_iff_exists'.mp (hsome 2)
  obtain ⟨e3, he3⟩ := Option.ne_none_iff_exists'.mp (hsome 3)
  refine ⟨e3, he3, ?_⟩
  have t1 := retryGo_step ML_SERVICE_RETRY behavior 1 2 e1 he1 (hretry 1 e1 he1)
  have t2 := retryGo_step ML_SERVICE_RETRY behavior 2 1 e2 he2 (hretry 2 e2 he2)
  have t3 := retryGo_step ML_SERVICE_RETRY behavior 3 0 e3 he3 (hretry 3 e3 he3)
  have e0 : execRetry ML_SERVICE_RETRY behavior =
      retryGo ML_SERVICE_RETRY behavior 1 (2 + 1) := rfl
  rw [e0, t1]
  norm_num
  have e1' : retryGo ML_SERVICE_RETRY behavior 2 2 =
      retryGo ML_SERVICE_RETRY behavior 2 (1 + 1) := rfl
  rw [e1', t2]
  norm_num
  have e2' : retryGo ML_SERVICE_RETRY behavior 3 1 =
      retryGo ML_SERVICE_RETRY behavior 3 (0 + 1) := rfl
  rw [e2', t3]
  norm_num

/-- Witness for C4: an activity behavior that fails every attempt with a
retryable `A100ServiceError` is invoked exactly 3 times under
`ML_SERVICE_RETRY` and then fails. -/
theorem C4_retry_policies_witness :
    execRetry ML_SERVICE_RETRY (fun _ => some "A100ServiceError") =
      .failed 3 "A100ServiceError" := by
  obtain ⟨e, he, hrun⟩ :=
    C4_retry_policies.2.2.2.2.2 (fun _ => some "A100ServiceError")
      (fun k => by simp) (fun k e hk => by cases hk; decide)
  have hee : e = "A100ServiceError" := by
    simpa using he.symm
  rw [hrun, hee]

/-- A non-terminal response at iteration `i ≤ 60` makes the poll loop
sleep and continue at `i + 1`. -/
theorem pollFrom_skip (r : ℕ → JobData) (i : ℕ) (hi : i ≤ 60)
    (h : isTerminal (r i) = false) : pollFrom r i = pollFrom r (i + 1) := by
  have h1 : ¬ 2 * i > 120 := by omega
  simp only [isTerminal, Bool.or_eq_false_iff, beq_eq_false_iff_ne, ne_eq] at h
  rw [pollFrom]
  simp [h1, h.1.1, h.1.2, h.2]

/-- If no response before iteration `i ≤ 61` is terminal, the poll loop
reaches iteration `i`. -/
theorem pollFrom_reach (r : ℕ → JobData) :
    ∀ i, i ≤ 61 → (∀ j, j < i → isTerminal (r j) = false) →
      poll_job r = pollFrom r i := by
  intro i
  induction i with
  | zero => intro _ _; rfl
  | succ n ih =>
      intro hn hno
      rw [ih (by omega) (fun j hj => hno j (by omega))]
      exact pollFrom_skip r n (by omega) (hno n (by omega))

/-- C3. (amended). The async-job poll loop polls at a fixed 2-second
interval until the reported status is `completed`/`succeeded` or
`failed`, or the 120-second budget elapses (the first timeout check that
fires is iteration 61, at elapsed 122 s > 120 s), whichever comes first.
On timeout it raises `TimeoutError`, which the ML-service retry policy
treats as retryable; on an explicit `failed` status it raises an error
carrying the remote error message — but that error is a generic
`Exception`, which is *also* retryable under the policy (only
`A100UnavailableError` is non-retryable), not the non-retryable error
the claim states. -/
theorem C3_poll_loop (r : ℕ → JobData) :
    (∀ i, i ≤ 60 → (∀ j, j < i → isTerminal (r j) = false) →
      (((r i).status = "completed" ∨ (r i).status = "succeeded") →
         poll_job r = .success i (r i)) ∧
      ((r i).status = "failed" →
         poll_job r = .jobFailed
           ("Job failed: " ++ ((r i).error.getD "Unknown error")))) ∧
    ((∀ j, j ≤ 60 → isTerminal (r j) = false) → poll_job r = .timedOut) ∧
    pollErrType .timedOut = some "TimeoutError" ∧
    isNonRetryable ML_SERVICE_RETRY "TimeoutError" = false ∧
    (∀ msg, pollErrType (.jobFailed msg) = some "Exception") ∧
    isNonRetryable ML_SERVICE_RETRY "Exception" = false := by
  refine ⟨?_, ?_, rfl, by decide, fun _ => rfl, by decide⟩
  · intro i hi hno
    have hreach := pollFrom_reach r i (by omega) hno
    have h1 : ¬ 2 * i > 120 := by omega
    constructor
    · intro hterm
      rw [hreach, pollFrom]
      simp [h1, hterm]
    · intro hfail
      rw [hreach, pollFrom]
      have hne1 : ¬ (r i).status = "completed" := by rw [hfail]; decide
      have hne2 : ¬ (r i).status = "succeeded" := by rw [hfail]; decide
      simp [h1, hne1, hne2, hfail]
  · intro hno
    have hreach := pollFrom_reach r 61 (by omega)
      (fun j hj => hno j (by omega))
    rw [hreach, pollFrom]
    norm_num

/-- Witness for C3: a job that is pending at the first poll and
`completed` at the second makes `poll_job` return that completed
response. -/
theorem C3_poll_loop_witness :
    poll_job (fun i => if i = 0 then { status := "pending" }
                       else { status := "completed" }) =
      .success 1 { status := "completed" } := by
  have h := ((C3_poll_loop
      (fun i => if i = 0 then { status := "pending" }
                else { status := "completed" })).1 1 (by norm_num)
      (fun j hj => by interval_cases j; rfl)).1 (Or.inl rfl)
  simpa using h

/-- Counterexample to C3 as stated: on an explicit `failed` status the
loop raises a generic `Exception` (carrying the remote message), and a
generic `Exception` is retryable under `ML_SERVICE_RETRY` — not the
non-retryable error the claim asserts. -/
theorem C3_counterexample :
    poll_job (fun _ => { status := "failed", error := some "boom" }) =
      .jobFailed "Job failed: boom" ∧
    pollErrType (.jobFailed "Job failed: boom") = some "Exception" ∧
    isNonRetryable ML_SERVICE_RETRY "Exception" = false := by
  refine ⟨?_, rfl, by decide⟩
  rw [poll_job, pollFrom]
  simp

/-- Evaluation of the status dictionary lookup, one literal per native
status. -/
theorem statusMapGet_def (s : WorkflowExecutionStatus) :
    statusMapGet s =
      match s with
      | .running => "RUNNING"
      | .completed => "COMPLETED"
      | .failed => "FAILED"
      | .canceled => "CANCELLED"
      | .terminated => "CANCELLED"
      | .timed_out => "FAILED"
      | .continued_as_new => "RUNNING" := by
  cases s <;> rfl

/-- C5. (amended). For every workflow whose engine status maps to
FAILED, the get-status response carries the stable error code
`WORKFLOW_FAILED` — but its `currentStep` field is the constant string
`"FAILED"`, not the last attempted step, and no field of the response
carries the last attempted step.  For every workflow whose status maps to
CANCELLED, the response contains no result payload (and carries the
stable code `WORKFLOW_CANCELLED`), even when activities had completed
before the cancellation boundary. -/
theorem C5_failed_cancelled_responses (wid : String)
    (native : WorkflowExecutionStatus) (pq : Option ProgressQ)
    (res : Option String) :
    (statusMapGet native = "FAILED" →
       (get_workflow_status wid native pq res).error =
         some { code := "WORKFLOW_FAILED",
                message := "Workflow execution failed" } ∧
       (get_workflow_status wid native pq res).currentStep = some "FAILED" ∧
       (get_workflow_status wid native pq res).result = none) ∧
    (statusMapGet native = "CANCELLED" →
       (get_workflow_status wid native pq res).result = none ∧
       (get_workflow_status wid native pq res).error =
         some { code := "WORKFLOW_CANCELLED",
                message := "Workflow was cancelled" }) := by
  cases native <;>
    simp [get_workflow_status, statusMapGet_def]

/-- Witness for C5: a workflow whose native status is FAILED, queried
while its progress record still names the mask-generation step, yields
the stable `WORKFLOW_FAILED` code and no result; a TERMINATED workflow
(mapped to CANCELLED) yields no result even though a completed payload
was fetchable. -/
theorem C5_failed_cancelled_responses_witness :
    ((get_workflow_status "wf-1" .failed
        (some { progress := 45, current_step := "GENERATING_MASK" })
        none).error =
      some { code := "WORKFLOW_FAILED",
             message := "Workflow execution failed" } ∧
     (get_workflow_status "wf-1" .failed
        (some { progress := 45, current_step := "GENERATING_MASK" })
        none).currentStep = some "FAILED" ∧
     (get_workflow_status "wf-1" .failed
        (some { progress := 45, current_step := "GENERATING_MASK" })
        none).result = none) ∧
    ((get_workflow_status "wf-2" .terminated none
        (some "partial-result")).result = none ∧
     (get_workflow_status "wf-2" .terminated none
        (some "partial-result")).error =
      some { code := "WORKFLOW_CANCELLED",
             message := "Workflow was cancelled" }) :=
  ⟨(C5_failed_cancelled_responses "wf-1" .failed
      (some { progress := 45, current_step := "GENERATING_MASK" }) none).1
      rfl,
   (C5_failed_cancelled_responses "wf-2" .terminated none
      (some "partial-result")).2 rfl⟩

/-- Counterexample to C5 as stated: for a workflow that failed while its
last attempted step was `GENERATING_MASK`, the get-status response does
not include that step — every string field of the response is shown
explicitly, and `currentStep` is the constant `"FAILED"`. -/
theorem C5_counterexample :
    get_workflow_status "wf-1" .failed
        (some { progress := 45, current_step := "GENERATING_MASK" }) none =
      { workflowId := "wf-1", status := "FAILED", progress := some 0,
        currentStep := some "FAILED", result := none,
        error := some { code := "WORKFLOW_FAILED",
                        message := "Workflow execution failed" } } ∧
    (get_workflow_status "wf-1" .failed
        (some { progress := 45, current_step := "GENERATING_MASK" })
        none).currentStep ≠ some "GENERATING_MASK" := by
  decide

/-- C9. Both transform-application functions build the affine matrix
as the product `T2·R·S·T1` (truncated to its top two rows), so the
point-wise application order is: translate the input-box center to the
origin (`T1`), then scale (`S`), then rotate (`R`), then translate to
the output-box center (`T2`).  The pixel-buffer transformation resamples
bilinearly with fully transparent fill `(0,0,0,0)` outside bounds, while
the mask transformation resamples nearest-neighbor with fill value 255 —
which marks background under the dark-jewelry convention (a 255-valued
pixel is never foreground), keeping resampled masks
binary-interpretable. -/
theorem C9_transform_application (td : TransformParams) :
    (transform_jewelry td).matrix =
      topTwoRows (matT2 td * matR td * matS td * matT1 td) ∧
    (transform_mask td).matrix =
      topTwoRows (matT2 td * matR td * matS td * matT1 td) ∧
    (∀ v : Fin 3 → ℝ,
      (buildAffine td).mulVec v =
        (matT2 td).mulVec ((matR td).mulVec ((matS td).mulVec
          ((matT1 td).mulVec v)))) ∧
    (∀ x y : ℝ, (matT1 td).mulVec ![x, y, 1] =
        ![x - td.in_cx, y - td.in_cy, 1]) ∧
    (∀ x y : ℝ, (matS td).mulVec ![x, y, 1] =
        ![td.scale_x * x, td.scale_y * y, 1]) ∧
    (∀ x y : ℝ, (matR td).mulVec ![x, y, 1] =
        ![Real.cos (radians td.rotation) * x - Real.sin (radians td.rotation) * y,
          Real.sin (radians td.rotation) * x + Real.cos (radians td.rotation) * y,
          1]) ∧
    (∀ x y : ℝ, (matT2 td).mulVec ![x, y, 1] =
        ![x + td.out_cx, y + td.out_cy, 1]) ∧
    (transform_jewelry td).interp = .linear ∧
    (transform_jewelry td).border = .rgba 0 0 0 0 ∧
    (transform_mask td).interp = .nearest ∧
    (transform_mask td).border = .gray 255 ∧
    foreground { height := 1, width := 1, pix := fun _ _ => 255 } = ∅ := by
  refine ⟨rfl, rfl, ?_, ?_, ?_, ?_, ?_, rfl, rfl, rfl, rfl, by decide⟩
  · intro v
    rw [Matrix.mulVec_mulVec, Matrix.mulVec_mulVec, Matrix.mulVec_mulVec]
    rfl
  all_goals
    intro x y
    funext i
    fin_cases i <;>
      simp [matT1, matS, matR, matT2, Matrix.mulVec, Matrix.dotProduct,
        Fin.sum_univ_three] <;>
      ring

/-- When the foreground is nonempty, `get_jewelry_bbox` returns the box
assembled from the column/row minima and maxima. -/
theorem get_jewelry_bbox_of_nonempty (m : Mask)
    (h : (foreground m).Nonempty) :
    get_jewelry_bbox m =
      some { x := ((foreground m).image Prod.snd).min' (h.image _)
             y := ((foreground m).image Prod.fst).min' (h.image _)
             width := ((foreground m).image Prod.snd).max' (h.image _) -
                      ((foreground m).image Prod.snd).min' (h.image _) + 1
             height := ((foreground m).image Prod.fst).max' (h.image _) -
                       ((foreground m).image Prod.fst).min' (h.image _) + 1
             center_x := ((((foreground m).image Prod.snd).min' (h.image _) : ℚ) +
                          (((foreground m).image Prod.snd).max' (h.image _) : ℚ)) / 2
             center_y := ((((foreground m).image Prod.fst).min' (h.image _) : ℚ) +
                          (((foreground m).image Prod.fst).max' (h.image _) : ℚ)) / 2 } := by
  rw [get_jewelry_bbox, dif_pos h]

/-- C6. For every single-channel mask, the bounding-box extraction
returns `None` iff the mask has zero foreground pixels (value `< 128`);
otherwise the returned box tightly encloses the foreground: `x` and `y`
are the minimal foreground column and row, `x + width - 1` and
`y + height - 1` are the maximal foreground column and row (so
`width = x_max - x_min + 1` and `height = y_max - y_min + 1`), and every
foreground pixel lies inside the box. -/
theorem C6_bounding_box (m : Mask) :
    (get_jewelry_bbox m = none ↔ foreground m = ∅) ∧
    (∀ b, get_jewelry_bbox m = some b →
      (∃ y, (y, b.x) ∈ foreground m) ∧
      (∃ x, (b.y, x) ∈ foreground m) ∧
      (∃ y, (y, b.x + b.width - 1) ∈ foreground m) ∧
      (∃ x, (b.y + b.height - 1, x) ∈ foreground m) ∧
      (∀ p ∈ foreground m,
        b.x ≤ p.2 ∧ p.2 ≤ b.x + b.width - 1 ∧
        b.y ≤ p.1 ∧ p.1 ≤ b.y + b.height - 1)) := by
  constructor
  · by_cases h : (foreground m).Nonempty
    · rw [get_jewelry_bbox_of_nonempty m h]
      simp [Finset.nonempty_iff_ne_empty.mp h]
    · rw [get_jewelry_bbox, dif_neg h]
      simp [Finset.not_nonempty_iff_eq_empty.mp h]
  · intro b hb
    have h : (foreground m).Nonempty := by
      by_contra hne
      rw [get_jewelry_bbox, dif_neg hne] at hb
      exact Option.noConfusion hb
    rw [get_jewelry_bbox_of_nonempty m h] at hb
    have hb' := Option.some.inj hb
    subst hb'
    set xs := (foreground m).image Prod.snd with hxs
    set ys := (foreground m).image Prod.fst with hys
    have hxmm : xs.min' (h.image _) ≤ xs.max' (h.image _) :=
      Finset.le_max' _ _ (Finset.min'_mem _ _)
    have hymm : ys.min' (h.image _) ≤ ys.max' (h.image _) :=
      Finset.le_max' _ _ (Finset.min'_mem _ _)
    have hxw : xs.min' (h.image _) +
        (xs.max' (h.image _) - xs.min' (h.image _) + 1) - 1 =
        xs.max' (h.image _) := by omega
    have hyh : ys.min' (h.image _) +
        (ys.max' (h.image _) - ys.min' (h.image _) + 1) - 1 =
        ys.max' (h.image _) := by omega
    refine ⟨?_, ?_, ?_, ?_, ?_⟩
    · obtain ⟨p, hp, hpe⟩ := Finset.mem_image.mp (Finset.min'_mem xs (h.image _))
      exact ⟨p.1, by rw [← hpe]; simpa using hp⟩
    · obtain ⟨p, hp, hpe⟩ := Finset.mem_image.mp (Finset.min'_mem ys (h.image _))
      exact ⟨p.2, by rw [← hpe]; simpa using hp⟩
    · rw [hxw]
      obtain ⟨p, hp, hpe⟩ := Finset.mem_image.mp (Finset.max'_mem xs (h.image _))
      exact ⟨p.1, by rw [← hpe]; simpa using hp⟩
    · rw [hyh]
      obtain ⟨p, hp, hpe⟩ := Finset.mem_image.mp (Finset.max'_mem ys (h.image _))
      exact ⟨p.2, by rw [← hpe]; simpa using hp⟩
    · intro p hp
      rw [hxw, hyh]
      exact ⟨Finset.min'_le xs p.2 (Finset.mem_image_of_mem _ hp),
             Finset.le_max' xs p.2 (Finset.mem_image_of_mem _ hp),
             Finset.min'_le ys p.1 (Finset.mem_image_of_mem _ hp),
             Finset.le_max' ys p.1 (Finset.mem_image_of_mem _ hp)⟩

/-- The fixture mask `maskW1` has a foreground pixel. -/
theorem maskW1_nonempty : (foreground maskW1).Nonempty := ⟨(1, 1), by decide⟩

/-- The bounding box of the fixture mask `maskW1`. -/
theorem maskW1_bbox :
    get_jewelry_bbox maskW1 =
      some { x := 0, y := 1, width := 2, height := 2,
             center_x := 1/2, center_y := 3/2 } := by
  have hxmin : ((foreground maskW1).image Prod.snd).min'
      (maskW1_nonempty.image _) = 0 := by decide
  have hxmax : ((foreground maskW1).image Prod.snd).max'
      (maskW1_nonempty.image _) = 1 := by decide
  have hymin : ((foreground maskW1).image Prod.fst).min'
      (maskW1_nonempty.image _) = 1 := by decide
  have hymax : ((foreground maskW1).image Prod.fst).max'
      (maskW1_nonempty.image _) = 2 := by decide
  rw [get_jewelry_bbox_of_nonempty maskW1 maskW1_nonempty]
  simp only [hxmin, hxmax, hymin, hymax]
  norm_num

/-- The fixture mask `maskDot` has a foreground pixel. -/
theorem maskDot_nonempty : (foreground maskDot).Nonempty := ⟨(0, 0), by decide⟩

/-- The bounding box of the fixture mask `maskDot`. -/
theorem maskDot_bbox :
    get_jewelry_bbox maskDot =
      some { x := 0, y := 0, width := 1, height := 1,
             center_x := 0, center_y := 0 } := by
  have hxmin : ((foreground maskDot).image Prod.snd).min'
      (maskDot_nonempty.image _) = 0 := by decide
  have hxmax : ((foreground maskDot).image Prod.snd).max'
      (maskDot_nonempty.image _) = 0 := by decide
  have hymin : ((foreground maskDot).image Prod.fst).min'
      (maskDot_nonempty.image _) = 0 := by decide
  have hymax : ((foreground maskDot).image Prod.fst).max'
      (maskDot_nonempty.image _) = 0 := by decide
  rw [get_jewelry_bbox_of_nonempty maskDot maskDot_nonempty]
  simp only [hxmin, hxmax, hymin, hymax]
  norm_num

/-- Witness for C6: on the 3×3 mask with foreground at `(1,1)` and
`(2,0)` the bounding box is `{x=0, y=1, width=2, height=2}` and it
tightly encloses both pixels. -/
theorem C6_bounding_box_witness :
    get_jewelry_bbox maskW1 =
      some { x := 0, y := 1, width := 2, height := 2,
             center_x := 1/2, center_y := 3/2 } ∧
    (∃ y, (y, 0) ∈ foreground maskW1) ∧
    (∃ x, (1, x) ∈ foreground maskW1) ∧
    (∃ y, (y, 0 + 2 - 1) ∈ foreground maskW1) ∧
    (∃ x, (1 + 2 - 1, x) ∈ foreground maskW1) ∧
    (∀ p ∈ foreground maskW1,
      0 ≤ p.2 ∧ p.2 ≤ 0 + 2 - 1 ∧ 1 ≤ p.1 ∧ p.1 ≤ 1 + 2 - 1) := by
  exact ⟨maskW1_bbox, (C6_bounding_box maskW1).2 _ maskW1_bbox⟩

/-- C10. Whenever the bounding-box extraction returns a box, its
width and height are at least 1 (`width = x_max - x_min + 1` over a
non-empty coordinate set), so in `detect_transformations` the scale
divisions never divide by zero and the `width > 0` / `height > 0` guards
never select the `1.0` fallback: the returned scale is always the exact
output/input size ratio, with a non-zero divisor. -/
theorem C10_scale_guards :
    (∀ (m : Mask) (b : BBox), get_jewelry_bbox m = some b →
      1 ≤ b.width ∧ 1 ≤ b.height) ∧
    (∀ (m1 m2 : Mask) (b1 b2 : BBox),
      get_jewelry_bbox m1 = some b1 → get_jewelry_bbox m2 = some b2 →
      0 < b1.width ∧ 0 < b1.height ∧ (b1.width : ℚ) ≠ 0 ∧ (b1.height : ℚ) ≠ 0 ∧
      ∃ t, detect_transformations m1 m2 = some t ∧
        t.scale_x = (b2.width : ℚ) / (b1.width : ℚ) ∧
        t.scale_y = (b2.height : ℚ) / (b1.height : ℚ)) := by
  have hwh : ∀ (m : Mask) (b : BBox), get_jewelry_bbox m = some b →
      1 ≤ b.width ∧ 1 ≤ b.height := by
    intro m b hb
    have h : (foreground m).Nonempty := by
      by_contra hne
      rw [get_jewelry_bbox, dif_neg hne] at hb
      exact Option.noConfusion hb
    rw [get_jewelry_bbox_of_nonempty m h] at hb
    have hb' := Option.some.inj hb
    subst hb'
    exact ⟨Nat.le_add_left 1 _, Nat.le_add_left 1 _⟩
  refine ⟨hwh, ?_⟩
  intro m1 m2 b1 b2 h1 h2
  obtain ⟨hw, hh⟩ := hwh m1 b1 h1
  have hwq : (b1.width : ℚ) ≠ 0 := by positivity
  have hhq : (b1.height : ℚ) ≠ 0 := by positivity
  refine ⟨hw, hh, hwq, hhq,
    ⟨{ translation_x := b2.center_x - b1.center_x
       translation_y := b2.center_y - b1.center_y
       scale_x := if 0 < b1.width then (b2.width : ℚ) / (b1.width : ℚ) else 1
       scale_y := if 0 < b1.height then (b2.height : ℚ) / (b1.height : ℚ) else 1
       rotation := get_jewelry_orientation m2 - get_jewelry_orientation m1
       input_bbox := b1
       output_bbox := b2 }, ?_, ?_, ?_⟩⟩
  · simp only [detect_transformations, h1, h2]
  · have hw0 : 0 < b1.width := hw
    simp [hw0]
  · have hh0 : 0 < b1.height := hh
    simp [hh0]

/-- Witness for C10: from `maskW1` (box 2×2) to `maskDot` (box 1×1) the
detected scale is the exact ratio `1/2` on both axes, with non-zero
divisors. -/
theorem C10_scale_guards_witness :
    (0 < 2 ∧ 0 < 2 ∧ ((2 : ℕ) : ℚ) ≠ 0 ∧ ((2 : ℕ) : ℚ) ≠ 0 ∧
      ∃ t, detect_transformations maskW1 maskDot = some t ∧
        t.scale_x = ((1 : ℕ) : ℚ) / ((2 : ℕ) : ℚ) ∧
        t.scale_y = ((1 : ℕ) : ℚ) / ((2 : ℕ) : ℚ)) ∧
    1 ≤ (2 : ℕ) ∧ 1 ≤ (2 : ℕ) := by
  have h2 := C10_scale_guards.2 maskW1 maskDot _ _ maskW1_bbox maskDot_bbox
  have h1 := C10_scale_guards.1 maskW1 _ maskW1_bbox
  exact ⟨h2, h1⟩

/-- C7. For every candidate mask, comparing a reference mask with
zero foreground pixels (no value `< 128`) against it returns the
degenerate vector `iou = 0`, `dice = 0`, `precision = 0`, `recall = 0`,
`growth_ratio = 1`, `extra_area_fraction = 0`: the `area_input == 0`
branch returns before any ratio is formed, so no division by zero (and no
exception) can occur. -/
theorem C7_empty_reference (ref cand : Mask)
    (h : (foreground ref).card = 0) :
    compare_masks_fidelity ref cand =
      { iou := 0, dice := 0, prec := 0, recl := 0,
        growth_ratio := 1, extra_area_fraction := 0 } := by
  have harea : countGrid ref.height ref.width
      (fun y x => ref.pix y x < 128) = 0 := by
    simpa [countGrid, foreground] using h
  simp [compare_masks_fidelity, harea]

/-- Witness for C7: the empty 2×2 reference compared against the
all-foreground 3×1 candidate (of different size, exercising the resize
path) yields the degenerate vector. -/
theorem C7_empty_reference_witness :
    compare_masks_fidelity maskEmpty maskCol =
      { iou := 0, dice := 0, prec := 0, recl := 0,
        growth_ratio := 1, extra_area_fraction := 0 } :=
  C7_empty_reference maskEmpty maskCol (by decide)

/-- The bounding-box extraction returns `none` exactly on masks with an
empty foreground. -/
theorem bbox_none_iff (m : Mask) :
    get_jewelry_bbox m = none ↔ foreground m = ∅ := by
  by_cases h : (foreground m).Nonempty
  · rw [get_jewelry_bbox_of_nonempty m h]
    simp [Finset.nonempty_iff_ne_empty.mp h]
  · rw [get_jewelry_bbox, dif_neg h]
    simp [Finset.not_nonempty_iff_eq_empty.mp h]

/-- Any returned bounding box has positive width and height. -/
theorem bbox_size_pos (m : Mask) (b : BBox)
    (hb : get_jewelry_bbox m = some b) : 1 ≤ b.width ∧ 1 ≤ b.height := by
  have h : (foreground m).Nonempty := by
    by_contra hne
    rw [get_jewelry_bbox, dif_neg hne] at hb
    exact Option.noConfusion hb
  rw [get_jewelry_bbox_of_nonempty m h] at hb
  have hb' := Option.some.inj hb
  subst hb'
  exact ⟨Nat.le_add_left 1 _, Nat.le_add_left 1 _⟩

/-- The foreground of an in-bounds rectangle mask is the product of the
two index intervals. -/
theorem foreground_rect (h w y0 y1 x0 x1 : ℕ) (hyh : y1 ≤ h) (hxw : x1 ≤ w) :
    foreground (rectMask h w y0 y1 x0 x1) =
      Finset.Ico y0 y1 ×ˢ Finset.Ico x0 x1 := by
  ext p
  simp only [foreground, rectMask, Finset.mem_filter, Finset.mem_product,
    Finset.mem_range, Finset.mem_Ico]
  constructor
  · rintro ⟨⟨hpy, hpx⟩, hlt⟩
    by_cases hc : y0 ≤ p.1 ∧ p.1 < y1 ∧ x0 ≤ p.2 ∧ p.2 < x1
    · exact ⟨⟨hc.1, hc.2.1⟩, hc.2.2⟩
    · rw [if_neg hc] at hlt
      omega
  · rintro ⟨⟨hy0, hy1⟩, hx0, hx1⟩
    refine ⟨⟨by omega, by omega⟩, ?_⟩
    rw [if_pos ⟨hy0, hy1, hx0, hx1⟩]
    omega

/-- The minimum of a nonempty `Ico` interval is its left endpoint. -/
theorem Ico_min' (a b : ℕ) (hab : a < b) (hne : (Finset.Ico a b).Nonempty) :
    (Finset.Ico a b).min' hne = a :=
  le_antisymm (Finset.min'_le _ _ (Finset.mem_Ico.mpr ⟨le_refl a, hab⟩))
    (Finset.le_min' _ _ _ (fun y hy => (Finset.mem_Ico.mp hy).1))

/-- The maximum of a nonempty `Ico` interval is its right endpoint less
one. -/
theorem Ico_max' (a b : ℕ) (hab : a < b) (hne : (Finset.Ico a b).Nonempty) :
    (Finset.Ico a b).max' hne = b - 1 := by
  refine le_antisymm (Finset.max'_le _ _ _ (fun y hy => ?_))
    (Finset.le_max' _ _ (Finset.mem_Ico.mpr ⟨by omega, by omega⟩))
  have := (Finset.mem_Ico.mp hy).2
  omega

/-- The bounding box of an in-bounds, nonempty rectangle mask. -/
theorem bbox_rect (h w y0 y1 x0 x1 : ℕ) (hy : y0 < y1) (hx : x0 < x1)
    (hyh : y1 ≤ h) (hxw : x1 ≤ w) :
    get_jewelry_bbox (rectMask h w y0 y1 x0 x1) =
      some { x := x0, y := y0
             width := (x1 - 1) - x0 + 1
             height := (y1 - 1) - y0 + 1
             center_x := ((x0 : ℚ) + ((x1 - 1 : ℕ) : ℚ)) / 2
             center_y := ((y0 : ℚ) + ((y1 - 1 : ℕ) : ℚ)) / 2 } := by
  have hfg := foreground_rect h w y0 y1 x0 x1 hyh hxw
  have hne : (foreground (rectMask h w y0 y1 x0 x1)).Nonempty := by
    rw [hfg]
    exact ⟨(y0, x0), Finset.mem_product.mpr
      ⟨Finset.mem_Ico.mpr ⟨le_refl _, hy⟩, Finset.mem_Ico.mpr ⟨le_refl _, hx⟩⟩⟩
  have hxs : (foreground (rectMask h w y0 y1 x0 x1)).image Prod.snd =
      Finset.Ico x0 x1 := by
    rw [hfg]
    exact Finset.product_image_snd (Finset.nonempty_Ico.mpr hy)
  have hys : (foreground (rectMask h w y0 y1 x0 x1)).image Prod.fst =
      Finset.Ico y0 y1 := by
    rw [hfg]
    exact Finset.product_image_fst (Finset.nonempty_Ico.mpr hx)
  rw [get_jewelry_bbox_of_nonempty _ hne]
  simp only [hxs, hys, Ico_min' _ _ hx, Ico_max' _ _ hx,
    Ico_min' _ _ hy, Ico_max' _ _ hy]

/-- On a rectangle mask the spatial moments factor into row and column
power sums. -/
theorem moment_rect (h w y0 y1 x0 x1 p q : ℕ) (hyh : y1 ≤ h) (hxw : x1 ≤ w) :
    moment p q (rectMask h w y0 y1 x0 x1) =
      255 * (∑ x ∈ Finset.Ico x0 x1, (x : ℚ) ^ p) *
        (∑ y ∈ Finset.Ico y0 y1, (y : ℚ) ^ q) := by
  rw [moment, foreground_rect h w y0 y1 x0 x1 hyh hxw, Finset.sum_product,
    Finset.sum_comm, mul_assoc, Finset.sum_mul_sum, Finset.mul_sum]
  refine Finset.sum_congr rfl (fun x _ => ?_)
  rw [Finset.mul_sum]
  refine Finset.sum_congr rfl (fun y _ => ?_)
  ring

/-- The second-order spread of an index interval is invariant under
translation of the interval. -/
theorem spread_Ico (a b : ℕ) (hab : a < b) :
    spread (Finset.Ico a b) = spread (Finset.range (b - a)) := by
  have hn0 : (0:ℚ) < ((b - a : ℕ) : ℚ) := by
    have h : 0 < b - a := by omega
    exact_mod_cast h
  rw [spread, spread, Nat.card_Ico, Finset.card_range,
    Finset.sum_Ico_eq_sum_range, Finset.sum_Ico_eq_sum_range]
  push_cast
  have h1 : ∑ i ∈ Finset.range (b - a), ((a:ℚ) + (i:ℚ)) =
      ((b - a : ℕ):ℚ) * (a:ℚ) + ∑ i ∈ Finset.range (b - a), (i:ℚ) := by
    rw [Finset.sum_add_distrib, Finset.sum_const, Finset.card_range,
      nsmul_eq_mul]
  have h2 : ∑ i ∈ Finset.range (b - a), ((a:ℚ) + (i:ℚ))^2 =
      ((b - a : ℕ):ℚ) * (a:ℚ)^2 +
        2*(a:ℚ)*(∑ i ∈ Finset.range (b - a), (i:ℚ)) +
        ∑ i ∈ Finset.range (b - a), (i:ℚ)^2 := by
    have hsq : ∀ i : ℕ, ((a:ℚ) + (i:ℚ))^2 =
        (a:ℚ)^2 + 2*(a:ℚ)*(i:ℚ) + (i:ℚ)^2 := fun i => by ring
    simp_rw [hsq]
    rw [Finset.sum_add_distrib, Finset.sum_add_distrib, Finset.sum_const,
      Finset.card_range, nsmul_eq_mul, ← Finset.mul_sum]
  rw [h1, h2]
  field_simp
  ring

/-- Value of `mu20` on an in-bounds, nonempty rectangle mask: `255 · height ·
spread(columns)`. -/
theorem mu20_rect (h w y0 y1 x0 x1 : ℕ) (hy : y0 < y1) (hx : x0 < x1)
    (hyh : y1 ≤ h) (hxw : x1 ≤ w) :
    mu20 (rectMask h w y0 y1 x0 x1) =
      255 * ((y1 - y0 : ℕ) : ℚ) * spread (Finset.Ico x0 x1) := by
  have hm00 := moment_rect h w y0 y1 x0 x1 0 0 hyh hxw
  have hm10 := moment_rect h w y0 y1 x0 x1 1 0 hyh hxw
  have hm20 := moment_rect h w y0 y1 x0 x1 2 0 hyh hxw
  simp only [pow_zero, pow_one, Finset.sum_const, Nat.card_Ico,
    nsmul_eq_mul, mul_one] at hm00 hm10 hm20
  have hnx : (0:ℚ) < ((x1 - x0 : ℕ) : ℚ) := by
    have hp : 0 < x1 - x0 := by omega
    exact_mod_cast hp
  have hny : (0:ℚ) < ((y1 - y0 : ℕ) : ℚ) := by
    have hp : 0 < y1 - y0 := by omega
    exact_mod_cast hp
  have hm00ne : moment 0 0 (rectMask h w y0 y1 x0 x1) ≠ 0 := by
    rw [hm00]; positivity
  simp only [mu20, if_neg hm00ne]
  rw [hm00, hm10, hm20, spread, Nat.card_Ico]
  field_simp
  ring

/-- Value of `mu02` on an in-bounds, nonempty rectangle mask: `255 · width ·
spread(rows)`. -/
theorem mu02_rect (h w y0 y1 x0 x1 : ℕ) (hy : y0 < y1) (hx : x0 < x1)
    (hyh : y1 ≤ h) (hxw : x1 ≤ w) :
    mu02 (rectMask h w y0 y1 x0 x1) =
      255 * ((x1 - x0 : ℕ) : ℚ) * spread (Finset.Ico y0 y1) := by
  have hm00 := moment_rect h w y0 y1 x0 x1 0 0 hyh hxw
  have hm01 := moment_rect h w y0 y1 x0 x1 0 1 hyh hxw
  have hm02 := moment_rect h w y0 y1 x0 x1 0 2 hyh hxw
  simp only [pow_zero, pow_one, Finset.sum_const, Nat.card_Ico,
    nsmul_eq_mul, mul_one] at hm00 hm01 hm02
  have hnx : (0:ℚ) < ((x1 - x0 : ℕ) : ℚ) := by
    have hp : 0 < x1 - x0 := by omega
    exact_mod_cast hp
  have hny : (0:ℚ) < ((y1 - y0 : ℕ) : ℚ) := by
    have hp : 0 < y1 - y0 := by omega
    exact_mod_cast hp
  have hm00ne : moment 0 0 (rectMask h w y0 y1 x0 x1) ≠ 0 := by
    rw [hm00]; positivity
  simp only [mu02, if_neg hm00ne]
  rw [hm00, hm01, hm02, spread, Nat.card_Ico]
  field_simp
  ring

/-- A square foreground region is moment-symmetric, so the orientation
guard `mu20 == mu02` fires and the orientation is `0`. -/
theorem orientation_square (h w y0 y1 x0 x1 : ℕ) (hy : y0 < y1)
    (hx : x0 < x1) (hyh : y1 ≤ h) (hxw : x1 ≤ w)
    (hsq : y1 - y0 = x1 - x0) :
    get_jewelry_orientation (rectMask h w y0 y1 x0 x1) = 0 := by
  have hmu : mu20 (rectMask h w y0 y1 x0 x1) =
      mu02 (rectMask h w y0 y1 x0 x1) := by
    rw [mu20_rect h w y0 y1 x0 x1 hy hx hyh hxw,
      mu02_rect h w y0 y1 x0 x1 hy hx hyh hxw,
      spread_Ico x0 x1 hx, spread_Ico y0 y1 hy, hsq]
  rw [get_jewelry_orientation, if_pos hmu]

/-- Bounding box of the scenario input mask: the 100×100 square at
(100, 100), centered at (149.5, 149.5). -/
theorem scenIn_bbox :
    get_jewelry_bbox scenIn =
      some { x := 100, y := 100, width := 100, height := 100,
             center_x := 299/2, center_y := 299/2 } := by
  have hb := bbox_rect 300 300 100 200 100 200
    (by norm_num) (by norm_num) (by norm_num) (by norm_num)
  rw [show scenIn = rectMask 300 300 100 200 100 200 from rfl, hb]
  norm_num

/-- Bounding box of the scenario output mask: the 150×150 square at
(95, 75), centered at (169.5, 149.5). -/
theorem scenOut_bbox :
    get_jewelry_bbox scenOut =
      some { x := 95, y := 75, width := 150, height := 150,
             center_x := 339/2, center_y := 299/2 } := by
  have hb := bbox_rect 300 300 75 225 95 245
    (by norm_num) (by norm_num) (by norm_num) (by norm_num)
  rw [show scenOut = rectMask 300 300 75 225 95 245 from rfl, hb]
  norm_num

/-- The scenario input square is moment-symmetric: orientation 0. -/
theorem scenIn_orientation : get_jewelry_orientation scenIn = 0 :=
  orientation_square 300 300 100 200 100 200
    (by norm_num) (by norm_num) (by norm_num) (by norm_num) (by norm_num)

/-- The scenario output square is moment-symmetric: orientation 0. -/
theorem scenOut_orientation : get_jewelry_orientation scenOut = 0 :=
  orientation_square 300 300 75 225 95 245
    (by norm_num) (by norm_num) (by norm_num) (by norm_num) (by norm_num)

/-- C8. The function `detect_transformations` returns `None` iff at least one of
the two masks has no foreground pixels; otherwise it returns translation
equal to the difference of the two bounding-box centers, scale equal to
the ratio of output to input bounding-box width and height, and rotation
equal to the difference of the two moment orientations — and on the §8
scenario (a 100×100 px foreground square translated 20 px right and
scaled 1.5×) it returns exactly translation (20, 0), scale (1.5, 1.5)
and rotation 0°. -/
theorem C8_detect_transformations :
    (∀ m1 m2 : Mask, detect_transformations m1 m2 = none ↔
        (foreground m1 = ∅ ∨ foreground m2 = ∅)) ∧
    (∀ (m1 m2 : Mask) (b1 b2 : BBox),
      get_jewelry_bbox m1 = some b1 → get_jewelry_bbox m2 = some b2 →
      detect_transformations m1 m2 = some
        { translation_x := b2.center_x - b1.center_x
          translation_y := b2.center_y - b1.center_y
          scale_x := (b2.width : ℚ) / (b1.width : ℚ)
          scale_y := (b2.height : ℚ) / (b1.height : ℚ)
          rotation := get_jewelry_orientation m2 - get_jewelry_orientation m1
          input_bbox := b1
          output_bbox := b2 }) ∧
    detect_transformations scenIn scenOut = some
      { translation_x := 20, translation_y := 0,
        scale_x := 3/2, scale_y := 3/2, rotation := 0,
        input_bbox := { x := 100, y := 100, width := 100, height := 100,
                        center_x := 299/2, center_y := 299/2 }
        output_bbox := { x := 95, y := 75, width := 150, height := 150,
                         center_x := 339/2, center_y := 299/2 } } := by
  have hpart2 : ∀ (m1 m2 : Mask) (b1 b2 : BBox),
      get_jewelry_bbox m1 = some b1 → get_jewelry_bbox m2 = some b2 →
      detect_transformations m1 m2 = some
        { translation_x := b2.center_x - b1.center_x
          translation_y := b2.center_y - b1.center_y
          scale_x := (b2.width : ℚ) / (b1.width : ℚ)
          scale_y := (b2.height : ℚ) / (b1.height : ℚ)
          rotation := get_jewelry_orientation m2 - get_jewelry_orientation m1
          input_bbox := b1
          output_bbox := b2 } := by
    intro m1 m2 b1 b2 h1 h2
    obtain ⟨hw, hh⟩ := bbox_size_pos m1 b1 h1
    have hw0 : 0 < b1.width := hw
    have hh0 : 0 < b1.height := hh
    simp only [detect_transformations, h1, h2, if_pos hw0, if_pos hh0]
  refine ⟨?_, hpart2, ?_⟩
  · intro m1 m2
    rcases h1 : get_jewelry_bbox m1 with _ | b1
    · have he1 := (bbox_none_iff m1).mp h1
      simp [detect_transformations, h1, he1]
    · have hne1 : ¬ foreground m1 = ∅ := by
        intro he
        rw [(bbox_none_iff m1).mpr he] at h1
        exact Option.noConfusion h1
      rcases h2 : get_jewelry_bbox m2 with _ | b2
      · have he2 := (bbox_none_iff m2).mp h2
        simp [detect_transformations, h1, h2, he2]
      · have hne2 : ¬ foreground m2 = ∅ := by
          intro he
          rw [(bbox_none_iff m2).mpr he] at h2
          exact Option.noConfusion h2
        simp [detect_transformations, h1, h2, hne1, hne2]
  · rw [hpart2 scenIn scenOut _ _ scenIn_bbox scenOut_bbox,
      scenIn_orientation, scenOut_orientation]
    norm_num

/-- Witness for C8: an empty input mask propagates `None`, and between
the concrete fixtures `maskW1` (box 2×2 centered at (0.5, 1.5)) and
`maskDot` (box 1×1 centered at (0, 0)) the detected transform is the
center difference and the exact size ratio. -/
theorem C8_detect_transformations_witness :
    detect_transformations maskEmpty maskW1 = none ∧
    detect_transformations maskW1 maskDot = some
      { translation_x := 0 - 1/2
        translation_y := 0 - 3/2
        scale_x := ((1 : ℕ) : ℚ) / ((2 : ℕ) : ℚ)
        scale_y := ((1 : ℕ) : ℚ) / ((2 : ℕ) : ℚ)
        rotation := get_jewelry_orientation maskDot -
          get_jewelry_orientation maskW1
        input_bbox := { x := 0, y := 1, width := 2, height := 2,
                        center_x := 1/2, center_y := 3/2 }
        output_bbox := { x := 0, y := 0, width := 1, height := 1,
                         center_x := 0, center_y := 0 } } := by
  constructor
  · exact (C8_detect_transformations.1 maskEmpty maskW1).mpr
      (Or.inl (by decide))
  · exact C8_detect_transformations.2.1 maskW1 maskDot _ _
      maskW1_bbox maskDot_bbox

/-- C1. (amended). In the full-pipeline workflow, once the cancel
signal has set the cancellation flag, the run observes the flag at the
next of its six step-boundary checks — never mid-activity: the executed
activities are exactly the prefix of the normal run's activity sequence
up to that boundary — and terminates by raising the cancellation error
(hence `CANCELLED`).  The preprocessing-only and generation-only
workflows, however, never read the flag their `cancel` signal sets:
their runs are identical for every flag history and always complete. -/
theorem C1_cancellation_boundaries :
    (∀ (env : ActivityEnv) (input : WorkflowInput) (sig : ℕ → Bool) (k : ℕ),
      k ≤ 5 → (∀ j, j < k → sig j = false) → sig k = true →
      jewelryRun env input sig =
        ((jewelryRun env input (fun _ => false)).1.take
          (actsBeforeCheck env input k), .cancelled)) ∧
    (∀ env input sig,
      preprocessingRun env input sig =
        preprocessingRun env input (fun _ => false) ∧
      ∃ o, (preprocessingRun env input sig).2 = .completed o) ∧
    (∀ env mask strokes sig,
      generationRun env mask strokes sig =
        generationRun env mask strokes (fun _ => false) ∧
      ∃ o, (generationRun env mask strokes sig).2 = .completed o) := by
  refine ⟨?_, fun env input sig => ⟨rfl, ⟨_, rfl⟩⟩,
    fun env mask strokes sig => ⟨rfl, ⟨_, rfl⟩⟩⟩
  intro env input sig k hk hlt hsig
  interval_cases k
  · cases hbg : env.recommend_bg_removal <;>
      cases hst : hasStrokes input.brush_strokes <;>
      simp [jewelryRun, actsBeforeCheck, hsig, hbg, hst]
  · have h0 := hlt 0 (by norm_num)
    cases hbg : env.recommend_bg_removal <;>
      cases hst : hasStrokes input.brush_strokes <;>
      simp [jewelryRun, actsBeforeCheck, h0, hsig, hbg, hst]
  · have h0 := hlt 0 (by norm_num)
    have h1 := hlt 1 (by norm_num)
    cases hbg : env.recommend_bg_removal <;>
      cases hst : hasStrokes input.brush_strokes <;>
      simp [jewelryRun, actsBeforeCheck, h0, h1, hsig, hbg, hst]
  · have h0 := hlt 0 (by norm_num)
    have h1 := hlt 1 (by norm_num)
    have h2 := hlt 2 (by norm_num)
    cases hbg : env.recommend_bg_removal <;>
      cases hst : hasStrokes input.brush_strokes <;>
      simp [jewelryRun, actsBeforeCheck, h0, h1, h2, hsig, hbg, hst]
  · have h0 := hlt 0 (by norm_num)
    have h1 := hlt 1 (by norm_num)
    have h2 := hlt 2 (by norm_num)
    have h3 := hlt 3 (by norm_num)
    cases hbg : env.recommend_bg_removal <;>
      cases hst : hasStrokes input.brush_strokes <;>
      simp [jewelryRun, actsBeforeCheck, h0, h1, h2, h3, hsig, hbg, hst]
  · have h0 := hlt 0 (by norm_num)
    have h1 := hlt 1 (by norm_num)
    have h2 := hlt 2 (by norm_num)
    have h3 := hlt 3 (by norm_num)
    have h4 := hlt 4 (by norm_num)
    cases hbg : env.recommend_bg_removal <;>
      cases hst : hasStrokes input.brush_strokes <;>
      simp [jewelryRun, actsBeforeCheck, h0, h1, h2, h3, h4, hsig, hbg, hst]

/-- Witness for C1: with the flag first observed true at boundary check 1
(after the resize step), the full pipeline stops cancelled having executed
exactly upload and resize. -/
theorem C1_cancellation_boundaries_witness :
    jewelryRun env0 input0 (fun j => decide (1 ≤ j)) =
      ((jewelryRun env0 input0 (fun _ => false)).1.take
        (actsBeforeCheck env0 input0 1), .cancelled) ∧
    jewelryRun env0 input0 (fun j => decide (1 ≤ j)) =
      (["upload_to_azure", "resize_image"], .cancelled) := by
  constructor
  · exact C1_cancellation_boundaries.1 env0 input0 _ 1 (by norm_num)
      (fun j hj => by interval_cases j; rfl) (by rfl)
  · simp [jewelryRun, env0, input0, hasStrokes]

/-- Counterexample to C1 as stated: with the cancellation flag set before
every step boundary (the cancel signal delivered at the start), the
preprocessing-only and generation-only workflows still run to completion
— their outcome is not `cancelled`, because their run bodies never read
the flag. -/
theorem C1_counterexample :
    (preprocessingRun env0 input0 (fun _ => true)).2 ≠ Outcome.cancelled ∧
    (generationRun env0 "azure://c/mask.png" none (fun _ => true)).2 ≠
      Outcome.cancelled := by
  constructor <;> simp [preprocessingRun, generationRun]

end Formanova
